import Mathlib

/-!
Shallow embedding of the snitchvis indexing and render core (src/main.py).

The embedding models:
* the per-channel cursor table and event table (`Db`), with the live-processing
  path `maybe_index_message` (src/main.py `Snitchvis.maybe_index_message`);
* historical backfill `index_channel` (src/main.py `Snitchvis.index_channel`),
  where a channel's message history is passed in newest-first, as the transport
  delivers it;
* the startup coordinator of `Snitchvis.on_ready` / `Snitchvis.on_message`:
  messages arriving while channels are backfilled are queued and later drained
  (`drainLoop`, `coordinatorRun`);
* the trace of database writes and commits performed by startup backfill and by
  the `.index` command (`DbOp`, `onReadyOps`, `indexCommandOps`);
* the `.render` command's time-window resolution and usage-throttle admission
  (`resolveWindow`, `render`), as a trace of externally visible actions.

Python truthiness tests (`if not snitch_channel.last_indexed_id`,
`if last_id and ...`, `if past`, `if export`) are modelled exactly, so a stored
cursor of `0` behaves like a missing cursor, as in the source.

`Event.parse` lives in the external snitchvis library; it is a parameter
`parse : String → Option Event` throughout (`none` models
`InvalidEventException`).
-/

/-- A chat message: identifier, originating channel, raw text. -/
structure Message where
  id : Nat
  channelId : Nat
  content : String
  deriving DecidableEq, Repr

/-- A parsed snitch event (fields of the snitchvis `Event` used by this core). -/
structure Event where
  username : String
  namelayer_group : String
  x : Int
  y : Int
  z : Int
  t : Int
  deriving DecidableEq, Repr

/-- A row of the event table: which channel and message it was parsed from. -/
structure StoredEvent where
  channelId : Nat
  messageId : Nat
  ev : Event
  deriving DecidableEq, Repr

/-- Database state: the per-channel cursor table (`snitch_channel`, keyed by
channel id, storing `last_indexed_id`, `none` = null) and the event table. -/
structure Db where
  channels : List (Nat × Option Nat)
  events : List StoredEvent
  deriving DecidableEq, Repr

/-- Python truthiness of `last_indexed_id`: `None` and `0` are falsy. -/
def optTruthy : Option Nat → Bool
  | none => false
  | some n => n != 0

/-- `db.update_last_indexed(channel, id)`: SQL UPDATE of the cursor row
(updates the row if present, inserts nothing). -/
def update_last_indexed (d : Db) (chan mid : Nat) : Db :=
  { d with channels := d.channels.map fun p => if p.1 = chan then (p.1, some mid) else p }

/-- `db.add_event(message, event)`: append a row to the event table. -/
def add_event (d : Db) (chan mid : Nat) (e : Event) : Db :=
  { d with events := d.events ++ [⟨chan, mid, e⟩] }

/-- `Snitchvis.maybe_index_message` (src/main.py:96-113): the live-processing
path. Unknown channel or falsy cursor: discard. Otherwise parse; on a match,
persist the event and advance the cursor to this message's id. -/
def maybe_index_message (parse : String → Option Event) (d : Db) (m : Message) : Db :=
  match d.channels.lookup m.channelId with
  | none => d
  | some cursor =>
    if optTruthy cursor = false then d
    else
      match parse m.content with
      | none => d
      | some e => update_last_indexed (add_event d m.channelId m.id e) m.channelId m.id

/-- The history-scan stop test of `index_channel`:
`if last_id and message_.id <= last_id: break`. -/
def cursorBlocks (lastId : Option Nat) (mid : Nat) : Bool :=
  match lastId with
  | none => false
  | some c => c != 0 && decide (mid ≤ c)

/-- The collection loop of `index_channel` (src/main.py:120-130): walk history
newest-first, stop at the first message blocked by the cursor, collect
`(message, event)` pairs for messages that parse. -/
def collectEvents (parse : String → Option Event) (lastId : Option Nat) :
    List Message → List (Message × Event)
  | [] => []
  | m :: rest =>
    if cursorBlocks lastId m.id then []
    else
      match parse m.content with
      | none => collectEvents parse lastId rest
      | some e => (m, e) :: collectEvents parse lastId rest

/-- `Snitchvis.index_channel` (src/main.py:115-142): collect events down to the
cursor, set the cursor to the newest message currently in the channel (if any),
then persist the collected events. `history` is the channel's messages
newest-first; `cursor` is the channel record's stored `last_indexed_id`. -/
def index_channel (parse : String → Option Event) (d : Db) (chan : Nat)
    (cursor : Option Nat) (history : List Message) : Db :=
  let evs := collectEvents parse cursor history
  let d1 :=
    match history.head? with
    | some newest => update_last_indexed d chan newest.id
    | none => d
  evs.foldl (fun acc me => add_event acc chan me.1.id me.2) d1

/-- A configured snitch channel as seen by the coordinator: its id, whether the
bot can read messages in it, its stored cursor, and its current history
(newest-first). -/
structure ChannelInfo where
  id : Nat
  readable : Bool
  cursor : Option Nat
  history : List Message
  deriving DecidableEq, Repr

/-- The startup backfill loop of `Snitchvis.on_ready` (src/main.py:67-74): a
channel without read permission is skipped (`continue`) and the loop proceeds
with the remaining channels. Commits are modelled separately by `onReadyOps`. -/
def onReadyBackfill (parse : String → Option Event) (d : Db) (cs : List ChannelInfo) : Db :=
  cs.foldl
    (fun acc c => if c.readable then index_channel parse acc c.id c.cursor c.history else acc) d

/-- The `.index` command (src/main.py:327-360): no channels, nothing happens;
if any channel lacks read permission the whole command returns before indexing
anything; otherwise every channel is indexed (and committed) in turn. -/
def indexCommand (parse : String → Option Event) (d : Db) (cs : List ChannelInfo) : Db :=
  if cs.isEmpty then d
  else if cs.any (fun c => !c.readable) then d
  else cs.foldl (fun acc c => index_channel parse acc c.id c.cursor c.history) d

/-- Sequential live processing of a message list in arrival order: the
reference behaviour, with no queueing and no concurrency. -/
def processSeq (parse : String → Option Event) (d : Db) (ms : List Message) : Db :=
  ms.foldl (fun acc m => maybe_index_message parse acc m) d

/-- The drain loop of `on_ready` (src/main.py:81-83):
`while not queue.empty(): process(queue.get())`. The queue is FIFO; after each
processed item the next batch of newly-arrived messages (possibly empty) is
appended, modelling arrivals during draining. The loop re-checks emptiness
each iteration; if the queue is observed empty while arrival batches remain,
the loop exits and those batches are returned for live processing. -/
def drainLoop (parse : String → Option Event) :
    Db → List Message → List (List Message) → Db × List (List Message)
  | d, q, [] => (processSeq parse d q, [])
  | d, [], b :: more => (d, b :: more)
  | d, m :: rest, b :: more =>
    drainLoop parse (maybe_index_message parse d m) (rest ++ b) more

/-- The coordinator after backfill: drain the deferred queue (new batches may
arrive while draining), then — once the queue is empty and `defer_indexing` is
cleared — process any later arrivals immediately on receipt. -/
def coordinatorRun (parse : String → Option Event) (d : Db) (deferred : List Message)
    (arrivals : List (List Message)) : Db :=
  let r := drainLoop parse d deferred arrivals
  processSeq parse r.1 r.2.flatten

/-- One database operation performed by indexing code: an event insert, a
cursor update, or a `db.commit()`. -/
inductive DbOp where
  | addEventOp : Nat → Nat → DbOp
  | setCursorOp : Nat → Nat → DbOp
  | commitOp : DbOp
  deriving DecidableEq, Repr

/-- Whether an operation is a commit. -/
def DbOp.isCommit : DbOp → Bool
  | .commitOp => true
  | _ => false

/-- Whether an operation writes to the given channel. -/
def DbOp.touches : DbOp → Nat → Bool
  | .addEventOp c _, ch => c == ch
  | .setCursorOp c _, ch => c == ch
  | .commitOp, _ => false

/-- The write operations of one `index_channel` call, in program order: the
cursor update (if the channel has any message), then the event inserts. Both
are issued with `commit=False` — no commit appears here. -/
def indexChannelOps (parse : String → Option Event) (chan : Nat) (cursor : Option Nat)
    (history : List Message) : List DbOp :=
  (match history.head? with
   | some m0 => [DbOp.setCursorOp chan m0.id]
   | none => []) ++
  (collectEvents parse cursor history).map (fun me => DbOp.addEventOp chan me.1.id)

/-- The database-operation trace of startup backfill (`on_ready`,
src/main.py:67-75): every readable channel's writes in order, then a single
`db.commit()` after the loop. -/
def onReadyOps (parse : String → Option Event) (cs : List ChannelInfo) : List DbOp :=
  (cs.map fun c =>
    if c.readable then indexChannelOps parse c.id c.cursor c.history else []).flatten
  ++ [DbOp.commitOp]

/-- The database-operation trace of the `.index` command (src/main.py:327-360):
nothing when there are no channels or any channel is unreadable; otherwise each
channel's writes followed immediately by a `db.commit()` for that channel. -/
def indexCommandOps (parse : String → Option Event) (cs : List ChannelInfo) : List DbOp :=
  if cs.isEmpty then []
  else if cs.any (fun c => !c.readable) then []
  else (cs.map fun c =>
    indexChannelOps parse c.id c.cursor c.history ++ [DbOp.commitOp]).flatten

/-- Did every write touching channel `ch` happen only after the first commit?
This is what "channel `ch`'s predecessors were committed before moving on to
`ch`" requires of a trace in which `ch` comes last. -/
def commitBeforeChannel (ops : List DbOp) (ch : Nat) : Bool :=
  (ops.takeWhile fun op => ! op.isCommit).all fun op => ! op.touches ch

/-- The `--past` argument: the special string `"all"` or a timedelta in
seconds. -/
inductive PastArg where
  | all : PastArg
  | delta : Int → PastArg
  deriving DecidableEq, Repr

/-- Python truthiness of the `past` argument: `None` and `timedelta(0)` are
falsy; the string `"all"` is truthy. -/
def pastTruthy : Option PastArg → Bool
  | none => false
  | some .all => true
  | some (.delta s) => s != 0

/-- One row of the render-usage history: pixel cost and completion time. -/
structure UsageRec where
  cost : Nat
  t : Int
  deriving DecidableEq, Repr

/-- The per-guild state read by `.render`: the guild's event table and its
usage history. -/
structure RenderState where
  events : List Event
  usage : List UsageRec
  deriving DecidableEq, Repr

/-- The arguments of the `.render` command relevant to this core. `startT` and
`endT` are the `--start`/`--end` datetimes as timestamps (`none` = not
supplied); `exportArg` is the `--export` string. -/
structure RenderReq where
  size : Nat
  fps : Nat
  duration : Nat
  users : List String
  groups : List String
  past : Option PastArg
  startT : Option Int
  endT : Option Int
  exportArg : Option String
  deriving DecidableEq, Repr

/-- The externally visible actions of one `.render` invocation, in order. -/
inductive RAct where
  | sentBadExport : RAct
  | sentNoEvents : RAct
  | sentBadRange : RAct
  | queriedEvents : RAct
  | exportedSql : RAct
  | checkedVideoLimit : RAct
  | sentVideoLimit : RAct
  | checkedDayLimit : RAct
  | sentDayLimit : RAct
  | rendered : RAct
  | recordedUsage : Nat → RAct
  deriving DecidableEq, Repr

/-- The `--export` validation (src/main.py:467-470): `if export and export not
in ["sql", "svis"]` — an absent or empty string passes, as do `sql`/`svis`. -/
def okExport : Option String → Bool
  | none => true
  | some s => (s == "") || (s == "sql") || (s == "svis")

/-- `num_pixels = duration * fps * (size * size)` (src/main.py:548). -/
def numPixels (size fps duration : Nat) : Nat :=
  duration * fps * (size * size)

/-- Modelled from the spec: `db.most_recent_event` (db.py is not in src/) —
the globally latest event by timestamp, `none` when the guild has no events. -/
def mostRecentEvent (evs : List Event) : Option Event :=
  evs.foldl
    (fun acc e =>
      match acc with
      | none => some e
      | some b => if b.t < e.t then some e else acc)
    none

/-- Modelled from the spec: `db.get_events` (db.py is not in src/) — events in
the window `start ≤ t < end`, filtered by users and namelayer groups, where an
empty filter list means no restriction. -/
def getEvents (evs : List Event) (s e : Int) (users groups : List String) : List Event :=
  evs.filter fun ev =>
    decide (s ≤ ev.t) && decide (ev.t < e) &&
    (users.isEmpty || users.contains ev.username) &&
    (groups.isEmpty || groups.contains ev.namelayer_group)

/-- Modelled from the spec: `db.get_pixel_usage` (db.py is not in src/) — the
rolling usage: total cost of usage records with time in `[ws, we)`. -/
def rollingUsage (us : List UsageRec) (ws we : Int) : Nat :=
  (us.filter fun u => decide (ws ≤ u.t) && decide (u.t < we)).foldl
    (fun a u => a + u.cost) 0

/-- `Snitchvis.PIXEL_LIMIT_VIDEO` (src/main.py:37): the per-request limit. -/
def PIXEL_LIMIT_VIDEO : Nat := 200000000000000000

/-- `Snitchvis.PIXEL_LIMIT_DAY` (src/main.py:42): the per-day limit. -/
def PIXEL_LIMIT_DAY : Nat := 10000000000000000000000

/-- Time-window resolution of `.render` (src/main.py:472-507). A truthy
`--past` sets `end = now` and `start = 0` (for `"all"`) or `now - past`.
Otherwise: neither bound set — anchor to the guild's most recent event
(`none` result = no events at all, the command complains and exits); only
start — `end = now`; only end — `start = 0`; both — as given. -/
def resolveWindow (now : Int) (mostRecent : Option Int) (past : Option PastArg)
    (startT endT : Option Int) : Option (Int × Int) :=
  if pastTruthy past then
    match past with
    | some .all => some (0, now)
    | some (.delta d) => some (now - d, now)
    | none => none
  else
    match startT, endT with
    | none, none =>
      match mostRecent with
      | none => none
      | some t => some (t - 30 * 60, t)
    | some s, none => some (s, now)
    | none, some e => some (0, e)
    | some s, some e => some (s, e)

/-- `Snitchvis.render` (src/main.py:459-617) as a trace of actions, in program
order: export-argument validation; window resolution; `end < start` rejection;
the event query; the empty-result complaint; the `--export sql` path, which
returns immediately after exporting; the per-request pixel check; the rolling
per-day usage check (`usage > PIXEL_LIMIT_DAY`, the requested cost is not
added); the render itself; `db.add_render_history` after completion. -/
def render (req : RenderReq) (st : RenderState) (now : Int) : List RAct :=
  if okExport req.exportArg = false then [RAct.sentBadExport]
  else
    match resolveWindow now ((mostRecentEvent st.events).map Event.t) req.past
        req.startT req.endT with
    | none => [RAct.sentNoEvents]
    | some (s, e) =>
      if e < s then [RAct.sentBadRange]
      else if (getEvents st.events s e req.users req.groups).isEmpty then
        [RAct.queriedEvents, RAct.sentNoEvents]
      else if req.exportArg == some "sql" then [RAct.queriedEvents, RAct.exportedSql]
      else if PIXEL_LIMIT_VIDEO < numPixels req.size req.fps req.duration then
        [RAct.queriedEvents, RAct.checkedVideoLimit, RAct.sentVideoLimit]
      else if PIXEL_LIMIT_DAY < rollingUsage st.usage (now - 86400) now then
        [RAct.queriedEvents, RAct.checkedVideoLimit, RAct.checkedDayLimit,
          RAct.sentDayLimit]
      else
        [RAct.queriedEvents, RAct.checkedVideoLimit, RAct.checkedDayLimit,
          RAct.rendered, RAct.recordedUsage (numPixels req.size req.fps req.duration)]

/-- A concrete parser for witnesses and counterexamples: the text `"ping"`
parses to a fixed event, everything else raises (returns `none`). -/
def parse0 : String → Option Event :=
  fun s => if s = "ping" then some ⟨"alice", "g", 1, 2, 3, 50⟩ else none

/-- Witness database: channel 1 known with a null cursor. -/
def nullCursorDb : Db := ⟨[(1, none)], []⟩

/-- Witness database: channel 3 known with a stored cursor of 0. -/
def zeroCursorDb : Db := ⟨[(3, some 0)], []⟩

/-- Counterexample database for the backfill boundary: channel 7 with a stored
(non-null) cursor equal to 0. -/
def zeroBoundaryDb : Db := ⟨[(7, some 0)], []⟩

/-- Witness database for backfill: channel 7 with stored cursor 5. -/
def boundaryDb : Db := ⟨[(7, some 5)], []⟩

/-- Channels for the `.index` failure counterexample: channel 1 unreadable,
channel 2 readable with a parseable message newer than its cursor. -/
def c7Chans : List ChannelInfo :=
  [⟨1, false, some 5, [⟨30, 1, "ping"⟩]⟩, ⟨2, true, some 5, [⟨20, 2, "ping"⟩]⟩]

/-- Database matching `c7Chans`: both channels stored with cursor 5. -/
def c7Db : Db := ⟨[(1, some 5), (2, some 5)], []⟩

/-- Channels for the startup-commit counterexample: two readable, never-indexed
channels, each with one parseable message. -/
def c6Chans : List ChannelInfo :=
  [⟨1, true, none, [⟨10, 1, "ping"⟩]⟩, ⟨2, true, none, [⟨20, 2, "ping"⟩]⟩]

/-- A concrete render request: 1-pixel, 1-fps, 1-second video over all time
(cost 1), no filters, no export. -/
def smallReq : RenderReq :=
  { size := 1, fps := 1, duration := 1, users := [], groups := [],
    past := some PastArg.all, startT := none, endT := none, exportArg := none }

/-- The same request with `--export sql`. -/
def sqlReq : RenderReq := { smallReq with exportArg := some "sql" }

/-- A request with an explicit start of 5 and end of 3 (end before start). -/
def badRangeReq : RenderReq :=
  { size := 1, fps := 1, duration := 1, users := [], groups := [],
    past := none, startT := some 5, endT := some 3, exportArg := none }

/-- Guild state with one event at t = 50 and rolling usage exactly equal to
the per-day limit (one record of cost `PIXEL_LIMIT_DAY` at t = 90). -/
def atLimitState : RenderState :=
  { events := [⟨"alice", "g", 1, 2, 3, 50⟩], usage := [⟨PIXEL_LIMIT_DAY, 90⟩] }

/-- Guild state with rolling usage strictly above the per-day limit. -/
def overLimitState : RenderState :=
  { events := [⟨"alice", "g", 1, 2, 3, 50⟩], usage := [⟨PIXEL_LIMIT_DAY + 1, 90⟩] }

/-- The events table is untouched by a cursor update. -/
theorem update_last_indexed_events (d : Db) (chan mid : Nat) :
    (update_last_indexed d chan mid).events = d.events := rfl

/-- The cursor table is untouched by an event insert. -/
theorem add_event_channels (d : Db) (chan mid : Nat) (e : Event) :
    (add_event d chan mid e).channels = d.channels := rfl

/-- Folding event inserts appends the corresponding rows to the event table. -/
theorem foldl_add_event_events (chan : Nat) (l : List (Message × Event)) (d : Db) :
    (l.foldl (fun acc me => add_event acc chan me.1.id me.2) d).events
      = d.events ++ l.map (fun me => (⟨chan, me.1.id, me.2⟩ : StoredEvent)) := by
  induction l generalizing d with
  | nil => simp
  | cons me rest ih =>
    rw [List.foldl_cons, ih]
    simp [add_event]

/-- Folding event inserts leaves the cursor table unchanged. -/
theorem foldl_add_event_channels (chan : Nat) (l : List (Message × Event)) (d : Db) :
    (l.foldl (fun acc me => add_event acc chan me.1.id me.2) d).channels = d.channels := by
  induction l generalizing d with
  | nil => rfl
  | cons me rest ih =>
    rw [List.foldl_cons, ih]
    rfl

/-- `index_channel` appends exactly the collected events to the event table. -/
theorem index_channel_events (parse : String → Option Event) (d : Db) (chan : Nat)
    (cursor : Option Nat) (history : List Message) :
    (index_channel parse d chan cursor history).events
      = d.events ++ (collectEvents parse cursor history).map
          (fun me => (⟨chan, me.1.id, me.2⟩ : StoredEvent)) := by
  unfold index_channel
  cases history.head? <;>
    simp [foldl_add_event_events, update_last_indexed]

/-- The cursor table after `index_channel` is that of the cursor update alone. -/
theorem index_channel_channels (parse : String → Option Event) (d : Db) (chan : Nat)
    (cursor : Option Nat) (history : List Message) :
    (index_channel parse d chan cursor history).channels
      = match history.head? with
        | some newest => (update_last_indexed d chan newest.id).channels
        | none => d.channels := by
  unfold index_channel
  cases history.head? <;> simp [foldl_add_event_channels]

/-- A cursor update sets the looked-up cursor of its own channel, provided the
channel row exists. -/
theorem lookup_update_self (l : List (Nat × Option Nat)) (chan mid : Nat)
    (h : (l.lookup chan).isSome = true) :
    ((l.map fun p => if p.1 = chan then (p.1, some mid) else p).lookup chan)
      = some (some mid) := by
  induction l with
  | nil => simp [List.lookup] at h
  | cons p rest ih =>
    rcases p with ⟨k, v⟩
    by_cases hk : k = chan
    · subst hk
      have hmap : (((k, v) :: rest).map fun p => if p.1 = k then (p.1, some mid) else p)
          = (k, some mid) :: (rest.map fun p => if p.1 = k then (p.1, some mid) else p) := by
        simp
      rw [hmap]
      simp [List.lookup]
    · have hne : (chan == k) = false := by
        rw [beq_eq_false_iff_ne]
        exact Ne.symm hk
      have hmap : (((k, v) :: rest).map fun p => if p.1 = chan then (p.1, some mid) else p)
          = (k, v) :: (rest.map fun p => if p.1 = chan then (p.1, some mid) else p) := by
        simp [hk]
      rw [hmap]
      simp only [List.lookup, hne] at h ⊢
      exact ih h

/-- A cursor update leaves the looked-up cursor of every other channel
unchanged. -/
theorem lookup_update_other (l : List (Nat × Option Nat)) (chan mid ch : Nat)
    (h : ch ≠ chan) :
    ((l.map fun p => if p.1 = chan then (p.1, some mid) else p).lookup ch)
      = l.lookup ch := by
  induction l with
  | nil => rfl
  | cons p rest ih =>
    rcases p with ⟨k, v⟩
    by_cases hk : k = chan
    · subst hk
      have hck : (ch == k) = false := by
        rw [beq_eq_false_iff_ne]
        exact h
      have hmap : (((k, v) :: rest).map fun p => if p.1 = k then (p.1, some mid) else p)
          = (k, some mid) :: (rest.map fun p => if p.1 = k then (p.1, some mid) else p) := by
        simp
      rw [hmap]
      simp only [List.lookup, hck]
      exact ih
    · have hmap : (((k, v) :: rest).map fun p => if p.1 = chan then (p.1, some mid) else p)
          = (k, v) :: (rest.map fun p => if p.1 = chan then (p.1, some mid) else p) := by
        simp [hk]
      rw [hmap]
      cases hck : (ch == k) with
      | true => simp only [List.lookup, hck]
      | false =>
        simp only [List.lookup, hck]
        exact ih

/-- C2: a live message arriving in an unknown channel, or in a channel whose
stored cursor is null (never backfilled), is discarded by the live-processing
path: no event is persisted and no cursor is changed — the database is
returned unmodified. -/
theorem live_null_cursor_discards (parse : String → Option Event) (d : Db) (m : Message)
    (h : d.channels.lookup m.channelId = none ∨ d.channels.lookup m.channelId = some none) :
    maybe_index_message parse d m = d := by
  unfold maybe_index_message
  rcases h with h | h
  · rw [h]
  · rw [h]
    simp [optTruthy]

/-- C2 witness: a message in channel 1, whose cursor is null, is discarded. -/
theorem live_null_cursor_discards_witness :
    maybe_index_message parse0 nullCursorDb ⟨5, 1, "ping"⟩ = nullCursorDb :=
  live_null_cursor_discards parse0 nullCursorDb ⟨5, 1, "ping"⟩ (Or.inr (by rfl))

/-- C10: a stored cursor of 0 is treated exactly like a null cursor, because
the source tests the cursor for Python truthiness rather than for null: the
live path discards every message of such a channel without indexing it or
changing any cursor, and backfill ignores the boundary, scanning the entire
history just as for a never-indexed channel. -/
theorem cursor_zero_as_null (parse : String → Option Event) (d : Db) (m : Message)
    (chan : Nat) (history : List Message)
    (h : d.channels.lookup m.channelId = some (some 0)) :
    maybe_index_message parse d m = d ∧
    index_channel parse d chan (some 0) history = index_channel parse d chan none history := by
  constructor
  · unfold maybe_index_message
    rw [h]
    simp [optTruthy]
  · unfold index_channel
    have hc : collectEvents parse (some 0) history = collectEvents parse none history := by
      induction history with
      | nil => rfl
      | cons m0 rest ih =>
        have hb : cursorBlocks (some 0) m0.id = cursorBlocks none m0.id := by
          simp [cursorBlocks]
        cases hp : parse m0.content <;>
          simp [collectEvents, hb, hp, ih]
    rw [hc]

/-- C10 witness: in a channel stored with cursor 0, a parseable live message is
discarded, and backfill over a two-message history behaves as with a null
cursor. -/
theorem cursor_zero_as_null_witness :
    maybe_index_message parse0 zeroCursorDb ⟨9, 3, "ping"⟩ = zeroCursorDb ∧
    index_channel parse0 zeroCursorDb 3 (some 0) [⟨9, 3, "ping"⟩, ⟨4, 3, "x"⟩]
      = index_channel parse0 zeroCursorDb 3 none [⟨9, 3, "ping"⟩, ⟨4, 3, "x"⟩] :=
  cursor_zero_as_null parse0 zeroCursorDb ⟨9, 3, "ping"⟩ 3 [⟨9, 3, "ping"⟩, ⟨4, 3, "x"⟩]
    (by rfl)

/-- Every event collected by the backfill scan against a truthy cursor `C`
comes from a message with id strictly greater than `C`: the scan stops at the
first message with id at most `C`. -/
theorem collectEvents_gt_cursor (parse : String → Option Event) (C : Nat) (hC : C ≠ 0)
    (history : List Message) :
    ∀ me ∈ collectEvents parse (some C) history, C < me.1.id := by
  induction history with
  | nil => simp [collectEvents]
  | cons m rest ih =>
    intro me hme
    by_cases hb : cursorBlocks (some C) m.id = true
    · simp [collectEvents, hb] at hme
    · have hb' : cursorBlocks (some C) m.id = false := by
        simpa using hb
      have hgt : C < m.id := by
        simp [cursorBlocks, hC] at hb'
        omega
      cases hp : parse m.content with
      | none =>
        simp [collectEvents, hb', hp] at hme
        exact ih me hme
      | some e =>
        simp [collectEvents, hb', hp] at hme
        rcases hme with hme | hme
        · subst hme
          exact hgt
        · exact ih me hme

/-- C4 counterexample: channel 7 has the non-null stored cursor C = 0, and its
history holds a parseable message with id 0 ≤ C. Because the source tests the
cursor for truthiness (`if last_id and ...`), the scan does not stop at the
boundary and re-running backfill persists an event for that message, contrary
to the claim. -/
theorem backfill_zero_cursor_crosses_boundary :
    (⟨7, 0, ⟨"alice", "g", 1, 2, 3, 50⟩⟩ : StoredEvent)
        ∈ (index_channel parse0 zeroBoundaryDb 7 (some 0) [⟨0, 7, "ping"⟩]).events ∧
    (0 : Nat) ≤ 0 := by
  constructor
  · simp [index_channel, collectEvents, cursorBlocks, parse0, update_last_indexed, add_event,
      zeroBoundaryDb]
  · exact Nat.le_refl 0

/-- C4 (amended): for every channel whose stored cursor equals C where C is
non-null *and nonzero* (a truthy cursor — a stored cursor of 0 behaves like
null, see the cursor-zero theorem), re-running backfill never persists an
event for a message with id ≤ C: the history scan stops at the first message
with id ≤ C, so every event row added beyond the pre-existing ones has message
id strictly greater than C, and re-running the indexing operation is
idempotent with respect to already-indexed messages. -/
theorem backfill_exclusive_boundary (parse : String → Option Event) (d : Db)
    (chan C : Nat) (hC : C ≠ 0) (history : List Message) :
    ∀ se ∈ (index_channel parse d chan (some C) history).events,
      se ∈ d.events ∨ C < se.messageId := by
  intro se hse
  rw [index_channel_events] at hse
  rcases List.mem_append.mp hse with h | h
  · exact Or.inl h
  · right
    obtain ⟨me, hmem, hrow⟩ := List.mem_map.mp h
    have := collectEvents_gt_cursor parse C hC history me hmem
    rw [← hrow]
    exact this

/-- C4 witness: with stored cursor 5 and a history containing message ids 10
and 3, every persisted event is pre-existing or has message id above 5. -/
theorem backfill_exclusive_boundary_witness :
    (5 : Nat) ≠ 0 ∧
    ∀ se ∈ (index_channel parse0 boundaryDb 7 (some 5)
        [⟨10, 7, "ping"⟩, ⟨3, 7, "ping"⟩]).events,
      se ∈ boundaryDb.events ∨ 5 < se.messageId :=
  ⟨by decide,
    backfill_exclusive_boundary parse0 boundaryDb 7 5 (by decide)
      [⟨10, 7, "ping"⟩, ⟨3, 7, "ping"⟩]⟩

/-- C8: after backfilling a channel, the cursor is advanced to the id of the
newest message currently present in the channel, even when that message (or
every scanned message) does not match the event grammar; a channel with no
messages at all leaves the database — in particular the cursor — unchanged.
The channel must have a row in the cursor table (it is a configured snitch
channel). -/
theorem backfill_cursor_advance (parse : String → Option Event) (d : Db) (chan : Nat)
    (cursor : Option Nat) (history : List Message)
    (hpresent : (d.channels.lookup chan).isSome = true) :
    (history = [] → index_channel parse d chan cursor history = d) ∧
    (∀ m0 rest, history = m0 :: rest →
      (index_channel parse d chan cursor history).channels.lookup chan
        = some (some m0.id)) := by
  constructor
  · intro hnil
    subst hnil
    rfl
  · intro m0 rest hcons
    subst hcons
    rw [index_channel_channels]
    simp only [List.head?]
    exact lookup_update_self d.channels chan m0.id hpresent

/-- C8 witness: a channel whose only message does not parse still advances its
cursor to that message's id, and an empty channel is left unchanged. -/
theorem backfill_cursor_advance_witness :
    ((List.lookup 3 zeroCursorDb.channels).isSome = true) ∧
    (index_channel parse0 zeroCursorDb 3 (some 0) [] = zeroCursorDb) ∧
    ((index_channel parse0 zeroCursorDb 3 (some 0) [⟨9, 3, "not an event"⟩]).channels.lookup 3
      = some (some 9)) :=
  ⟨by decide,
    (backfill_cursor_advance parse0 zeroCursorDb 3 (some 0) [] (by decide)).1 rfl,
    (backfill_cursor_advance parse0 zeroCursorDb 3 (some 0) [⟨9, 3, "not an event"⟩]
      (by decide)).2 ⟨9, 3, "not an event"⟩ [] rfl⟩

/-- Draining the FIFO queue, with fresh batches arriving after each processed
item, followed by live processing of whatever batches remain when the queue is
observed empty, is exactly sequential processing of all messages in global
arrival order. -/
theorem drainLoop_spec (parse : String → Option Event) (arrivals : List (List Message)) :
    ∀ (d : Db) (q : List Message),
      processSeq parse (drainLoop parse d q arrivals).1 (drainLoop parse d q arrivals).2.flatten
        = processSeq parse d (q ++ arrivals.flatten) := by
  induction arrivals with
  | nil =>
    intro d q
    simp [drainLoop, processSeq]
  | cons b more ih =>
    intro d q
    cases q with
    | nil => simp [drainLoop]
    | cons m rest =>
      show processSeq parse (drainLoop parse (maybe_index_message parse d m) (rest ++ b) more).1
          (drainLoop parse (maybe_index_message parse d m) (rest ++ b) more).2.flatten = _
      rw [ih]
      simp [processSeq, List.append_assoc]

/-- C1: race-freedom of the startup coordinator. For every sequence of messages
queued while the coordinator defers indexing, and every pattern of batches
arriving while the queue is drained, the final database — event table included
— equals the one obtained by running the live-processing path on the same
messages sequentially in their arrival order with no concurrency. The model's
drain loop re-checks queue emptiness after each processed item (`drainLoop`
recurses on the remaining queue), and live processing of the leftover batches
happens only once the queue is observed empty. -/
theorem coordinator_race_free (parse : String → Option Event) (d : Db)
    (deferred : List Message) (arrivals : List (List Message)) :
    coordinatorRun parse d deferred arrivals
        = processSeq parse d (deferred ++ arrivals.flatten) ∧
    (coordinatorRun parse d deferred arrivals).events
        = (processSeq parse d (deferred ++ arrivals.flatten)).events := by
  have h := drainLoop_spec parse arrivals d deferred
  exact ⟨h, by rw [coordinatorRun, h]⟩

/-- C7 counterexample: running the `.index` command over two channels, the
first unreadable and the second readable with a parseable new message, leaves
the database untouched — the unreadable channel is not merely skipped, it
aborts the command before any channel is indexed, so the readable channel is
not backfilled (the startup path, by contrast, would have indexed it). -/
theorem index_blocked_by_unreadable_channel :
    indexCommand parse0 c7Db c7Chans = c7Db ∧
    (onReadyBackfill parse0 c7Db c7Chans).events ≠ [] := by
  constructor
  · rfl
  · decide

/-- Backfilling one channel never changes the looked-up cursor of a different
channel. -/
theorem index_channel_lookup_other (parse : String → Option Event) (d : Db)
    (chan : Nat) (cursor : Option Nat) (history : List Message) (ch : Nat)
    (h : ch ≠ chan) :
    (index_channel parse d chan cursor history).channels.lookup ch
      = d.channels.lookup ch := by
  rw [index_channel_channels]
  cases history.head? with
  | none => rfl
  | some m0 =>
    exact lookup_update_other d.channels chan m0.id ch h

/-- One step of the startup backfill loop. -/
theorem onReadyBackfill_cons (parse : String → Option Event) (d : Db)
    (c : ChannelInfo) (rest : List ChannelInfo) :
    onReadyBackfill parse d (c :: rest)
      = onReadyBackfill parse
          (if c.readable then index_channel parse d c.id c.cursor c.history else d) rest := rfl

/-- C7 (amended): during the startup backfill (`on_ready`), a channel whose
history cannot be read is skipped with a logged warning and does not block the
remaining channels — the run is exactly the run over the readable channels
alone, and every channel not backfilled keeps its stored cursor, so a retry is
safe. The manual `.index` command behaves differently: if any listed channel
is unreadable the whole command aborts before indexing anything, leaving the
database — all cursors included — unchanged (also retry-safe, but the
remaining channels are not backfilled by that invocation). -/
theorem backfill_failure_isolation (parse : String → Option Event) (d : Db)
    (cs : List ChannelInfo) :
    (onReadyBackfill parse d cs
        = onReadyBackfill parse d (cs.filter (fun c => c.readable))) ∧
    (∀ ch : Nat, ch ∉ (cs.filter (fun c => c.readable)).map (fun c => c.id) →
      (onReadyBackfill parse d cs).channels.lookup ch = d.channels.lookup ch) ∧
    (cs.any (fun c => !c.readable) = true → indexCommand parse d cs = d) := by
  refine ⟨?_, ?_, ?_⟩
  · induction cs generalizing d with
    | nil => rfl
    | cons c rest ih =>
      rw [onReadyBackfill_cons]
      by_cases hr : c.readable
      · rw [if_pos hr, List.filter_cons_of_pos hr, onReadyBackfill_cons, if_pos hr]
        exact ih (index_channel parse d c.id c.cursor c.history)
      · rw [if_neg hr, List.filter_cons_of_neg (by simpa using hr)]
        exact ih d
  · induction cs generalizing d with
    | nil =>
      intro ch _
      rfl
    | cons c rest ih =>
      intro ch hch
      rw [onReadyBackfill_cons]
      by_cases hr : c.readable
      · rw [List.filter_cons_of_pos hr] at hch
        simp only [List.map_cons, List.mem_cons, not_or] at hch
        rw [if_pos hr]
        rw [ih (index_channel parse d c.id c.cursor c.history) ch hch.2]
        exact index_channel_lookup_other parse d c.id c.cursor c.history ch hch.1
      · rw [List.filter_cons_of_neg (by simpa using hr)] at hch
        rw [if_neg hr]
        exact ih d ch hch
  · intro hany
    unfold indexCommand
    cases cs with
    | nil => simp at hany
    | cons c rest =>
      rw [if_neg (by simp), if_pos hany]

/-- C7 witness: with channel 1 unreadable and channel 2 readable, the startup
backfill equals the backfill over channel 2 alone, channel 1's cursor is
untouched, and the `.index` command leaves the database unchanged. -/
theorem backfill_failure_isolation_witness :
    (onReadyBackfill parse0 c7Db c7Chans
        = onReadyBackfill parse0 c7Db (c7Chans.filter (fun c => c.readable))) ∧
    ((onReadyBackfill parse0 c7Db c7Chans).channels.lookup 1 = c7Db.channels.lookup 1) ∧
    (indexCommand parse0 c7Db c7Chans = c7Db) :=
  ⟨(backfill_failure_isolation parse0 c7Db c7Chans).1,
    (backfill_failure_isolation parse0 c7Db c7Chans).2.1 1 (by decide),
    (backfill_failure_isolation parse0 c7Db c7Chans).2.2 (by decide)⟩

/-- C6 counterexample: during startup backfill of two channels, channel 2's
cursor update and event insert appear in the trace before any commit, so
channel 1's collected events and new cursor were not committed before the
coordinator moved on to channel 2 — the startup path issues a single commit
after all channels. The per-channel-commit behaviour the claim describes does
hold for the manual `.index` command trace, shown by the second conjunct. -/
theorem startup_commit_not_per_channel :
    commitBeforeChannel (onReadyOps parse0 c6Chans) 2 = false ∧
    commitBeforeChannel (indexCommandOps parse0 c6Chans) 2 = true := by
  decide

/-- No operation of a single channel's backfill block is a commit. -/
theorem indexChannelOps_no_commit (parse : String → Option Event) (chan : Nat)
    (cursor : Option Nat) (history : List Message) :
    ∀ op ∈ indexChannelOps parse chan cursor history, op ≠ DbOp.commitOp := by
  intro op hop
  unfold indexChannelOps at hop
  rcases List.mem_append.mp hop with h | h
  · cases history with
    | nil => simp [List.head?] at h
    | cons m0 rest =>
      simp only [List.head?, List.mem_singleton] at h
      subst h
      intro hc
      cases hc
  · obtain ⟨me, _, hrow⟩ := List.mem_map.mp h
    rw [← hrow]
    intro hc
    cases hc

/-- C6 (amended): during startup backfill, each channel's collected events and
new cursor are written together, in order, before the coordinator moves on to
the next channel, but they are committed only once, all channels together: the
startup trace ends with a single `db.commit()` and contains no other commit.
(The commit-per-channel-before-moving-on behaviour belongs to the manual
`.index` command, not to startup.) -/
theorem startup_commit_atomic_at_end (parse : String → Option Event)
    (cs : List ChannelInfo) :
    (onReadyOps parse cs).getLast? = some DbOp.commitOp ∧
    (∀ op ∈ (onReadyOps parse cs).dropLast, op ≠ DbOp.commitOp) := by
  constructor
  · unfold onReadyOps
    rw [List.getLast?_concat]
  · unfold onReadyOps
    rw [List.dropLast_concat]
    intro op hop
    obtain ⟨l, hl, hopl⟩ := List.mem_flatten.mp hop
    obtain ⟨c, _, hcl⟩ := List.mem_map.mp hl
    by_cases hr : c.readable
    · rw [if_pos hr] at hcl
      rw [← hcl] at hopl
      exact indexChannelOps_no_commit parse c.id c.cursor c.history op hopl
    · rw [if_neg hr] at hcl
      rw [← hcl] at hopl
      simp at hopl

/-- C6 witness: for the concrete two-channel startup trace, the final operation
is the sole commit and no commit occurs among the preceding writes. -/
theorem startup_commit_atomic_at_end_witness :
    (onReadyOps parse0 c6Chans).getLast? = some DbOp.commitOp ∧
    (∀ op ∈ (onReadyOps parse0 c6Chans).dropLast, op ≠ DbOp.commitOp) :=
  startup_commit_atomic_at_end parse0 c6Chans

/-- Exhaustive characterisation of the traces a `.render` invocation can
produce, with the conditions that select the throttle branches. -/
theorem render_cases (req : RenderReq) (st : RenderState) (now : Int) :
    render req st now = [RAct.sentBadExport] ∨
    render req st now = [RAct.sentNoEvents] ∨
    render req st now = [RAct.sentBadRange] ∨
    render req st now = [RAct.queriedEvents, RAct.sentNoEvents] ∨
    render req st now = [RAct.queriedEvents, RAct.exportedSql] ∨
    ((req.exportArg == some "sql") = false ∧
      PIXEL_LIMIT_VIDEO < numPixels req.size req.fps req.duration ∧
      render req st now = [RAct.queriedEvents, RAct.checkedVideoLimit,
        RAct.sentVideoLimit]) ∨
    ((req.exportArg == some "sql") = false ∧
      numPixels req.size req.fps req.duration ≤ PIXEL_LIMIT_VIDEO ∧
      PIXEL_LIMIT_DAY < rollingUsage st.usage (now - 86400) now ∧
      render req st now = [RAct.queriedEvents, RAct.checkedVideoLimit,
        RAct.checkedDayLimit, RAct.sentDayLimit]) ∨
    ((req.exportArg == some "sql") = false ∧
      numPixels req.size req.fps req.duration ≤ PIXEL_LIMIT_VIDEO ∧
      rollingUsage st.usage (now - 86400) now ≤ PIXEL_LIMIT_DAY ∧
      render req st now = [RAct.queriedEvents, RAct.checkedVideoLimit,
        RAct.checkedDayLimit, RAct.rendered,
        RAct.recordedUsage (numPixels req.size req.fps req.duration)]) := by
  unfold render
  by_cases h1 : okExport req.exportArg = false
  · rw [if_pos h1]
    exact Or.inl rfl
  · rw [if_neg h1]
    cases hw : resolveWindow now ((mostRecentEvent st.events).map Event.t) req.past
        req.startT req.endT with
    | none => exact Or.inr (Or.inl rfl)
    | some se =>
      rcases se with ⟨s, e⟩
      dsimp only
      by_cases h2 : e < s
      · rw [if_pos h2]
        exact Or.inr (Or.inr (Or.inl rfl))
      · rw [if_neg h2]
        by_cases h3 : (getEvents st.events s e req.users req.groups).isEmpty = true
        · rw [if_pos h3]
          exact Or.inr (Or.inr (Or.inr (Or.inl rfl)))
        · rw [if_neg h3]
          by_cases h4 : (req.exportArg == some "sql") = true
          · rw [if_pos h4]
            exact Or.inr (Or.inr (Or.inr (Or.inr (Or.inl rfl))))
          · rw [if_neg h4]
            have h4f : (req.exportArg == some "sql") = false :=
              Bool.not_eq_true _ ▸ Bool.of_not_eq_true h4
            by_cases h5 : PIXEL_LIMIT_VIDEO < numPixels req.size req.fps req.duration
            · rw [if_pos h5]
              exact Or.inr (Or.inr (Or.inr (Or.inr (Or.inr (Or.inl ⟨h4f, h5, rfl⟩)))))
            · rw [if_neg h5]
              by_cases h6 : PIXEL_LIMIT_DAY < rollingUsage st.usage (now - 86400) now
              · rw [if_pos h6]
                exact Or.inr (Or.inr (Or.inr (Or.inr (Or.inr (Or.inr (Or.inl
                  ⟨h4f, Nat.le_of_not_lt h5, h6, rfl⟩))))))
              · rw [if_neg h6]
                exact Or.inr (Or.inr (Or.inr (Or.inr (Or.inr (Or.inr (Or.inr
                  ⟨h4f, Nat.le_of_not_lt h5, Nat.le_of_not_lt h6, rfl⟩))))))

/-- C5: the default time-window policy of `.render`: with neither `--start`
nor `--end` (and no `--past`), the window ends at the timestamp of the
workspace's most recent event and starts 30 minutes (30·60 seconds) earlier;
with only a start, the end is now; with only an end, the start is epoch 0;
with both, they are used as given; and a resolved end earlier than the
resolved start is rejected as an error before the event query runs. -/
theorem render_default_window (now t s e : Int) :
    resolveWindow now (some t) none none none = some (t - 30 * 60, t) ∧
    (∀ mr : Option Int, resolveWindow now mr none (some s) none = some (s, now)) ∧
    (∀ mr : Option Int, resolveWindow now mr none none (some e) = some (0, e)) ∧
    (∀ mr : Option Int, resolveWindow now mr none (some s) (some e) = some (s, e)) ∧
    (∀ (req : RenderReq) (st : RenderState), okExport req.exportArg = true →
      resolveWindow now ((mostRecentEvent st.events).map Event.t) req.past req.startT
          req.endT = some (s, e) →
      e < s →
      render req st now = [RAct.sentBadRange] ∧
        RAct.queriedEvents ∉ render req st now) := by
  refine ⟨rfl, fun mr => rfl, fun mr => rfl, fun mr => rfl, ?_⟩
  intro req st hok hw hlt
  have hr : render req st now = [RAct.sentBadRange] := by
    unfold render
    rw [hok, if_neg (by simp), hw]
    dsimp only
    rw [if_pos hlt]
  exact ⟨hr, by rw [hr]; simp⟩

/-- C5 witness: most recent event at t = 10000 with no explicit range gives
the window [8200, 10000); start 7 alone runs to now = 99; end 7 alone starts
at 0; both bounds pass through; and end 3 before start 5 is rejected without
running the event query. -/
theorem render_default_window_witness :
    resolveWindow 99 (some 10000) none none none = some (8200, 10000) ∧
    resolveWindow 99 none none (some 7) none = some (7, 99) ∧
    resolveWindow 99 none none none (some 7) = some (0, 7) ∧
    resolveWindow 99 none none (some 5) (some 3) = some (5, 3) ∧
    render badRangeReq atLimitState 99 = [RAct.sentBadRange] ∧
    RAct.queriedEvents ∉ render badRangeReq atLimitState 99 := by
  refine ⟨(render_default_window 99 10000 5 3).1, ?_, ?_, ?_, ?_, ?_⟩
  · exact (render_default_window 99 10000 7 3).2.1 none
  · exact (render_default_window 99 10000 5 7).2.2.1 none
  · exact (render_default_window 99 10000 5 3).2.2.2.1 none
  · exact ((render_default_window 99 10000 5 3).2.2.2.2 badRangeReq atLimitState rfl rfl
      (by decide)).1
  · exact ((render_default_window 99 10000 5 3).2.2.2.2 badRangeReq atLimitState rfl rfl
      (by decide)).2

/-- C3 counterexample: rolling usage over the trailing 24 hours equals the
per-day limit and the request costs 1 more pixel, so under the claimed
admission rule (usage + requested cost must not exceed the limit) the request
would be rejected with no usage recorded; the code instead compares the
rolling usage alone against the limit, admits the request, renders, and
records the usage. -/
theorem day_limit_ignores_requested_cost :
    PIXEL_LIMIT_DAY
        < rollingUsage atLimitState.usage (100 - 86400) 100
          + numPixels smallReq.size smallReq.fps smallReq.duration ∧
    RAct.sentDayLimit ∉ render smallReq atLimitState 100 ∧
    RAct.rendered ∈ render smallReq atLimitState 100 ∧
    RAct.recordedUsage (numPixels smallReq.size smallReq.fps smallReq.duration)
        ∈ render smallReq atLimitState 100 := by
  decide

/-- C3 (amended): the render admission check rejects whenever the requested
cost `duration · fps · size²` exceeds the per-request limit, and separately
rejects whenever rolling usage over the trailing 24 hours — taken by itself,
the requested cost is not added — already exceeds the per-day limit; in both
rejection cases no usage record is appended, and a usage record (of exactly
the requested cost) is appended only after the render completes, as the final
action of the request. -/
theorem render_throttle_admission (req : RenderReq) (st : RenderState) (now : Int)
    (c : Nat) :
    (RAct.sentVideoLimit ∈ render req st now →
      PIXEL_LIMIT_VIDEO < numPixels req.size req.fps req.duration ∧
      ∀ c0 : Nat, RAct.recordedUsage c0 ∉ render req st now) ∧
    (RAct.sentDayLimit ∈ render req st now →
      PIXEL_LIMIT_DAY < rollingUsage st.usage (now - 86400) now ∧
      numPixels req.size req.fps req.duration ≤ PIXEL_LIMIT_VIDEO ∧
      ∀ c0 : Nat, RAct.recordedUsage c0 ∉ render req st now) ∧
    (RAct.recordedUsage c ∈ render req st now →
      c = numPixels req.size req.fps req.duration ∧
      numPixels req.size req.fps req.duration ≤ PIXEL_LIMIT_VIDEO ∧
      rollingUsage st.usage (now - 86400) now ≤ PIXEL_LIMIT_DAY ∧
      RAct.rendered ∈ render req st now ∧
      (render req st now).getLast? = some (RAct.recordedUsage c)) := by
  rcases render_cases req st now with hc | hc | hc | hc | hc |
    ⟨hx, hlt, hc⟩ | ⟨hx, hle, hgt, hc⟩ | ⟨hx, hle1, hle2, hc⟩
  · refine ⟨?_, ?_, ?_⟩ <;> (intro hm; rw [hc] at hm; simp at hm)
  · refine ⟨?_, ?_, ?_⟩ <;> (intro hm; rw [hc] at hm; simp at hm)
  · refine ⟨?_, ?_, ?_⟩ <;> (intro hm; rw [hc] at hm; simp at hm)
  · refine ⟨?_, ?_, ?_⟩ <;> (intro hm; rw [hc] at hm; simp at hm)
  · refine ⟨?_, ?_, ?_⟩ <;> (intro hm; rw [hc] at hm; simp at hm)
  · refine ⟨?_, ?_, ?_⟩
    · intro _
      refine ⟨hlt, fun c0 => ?_⟩
      rw [hc]
      simp
    · intro hm
      rw [hc] at hm
      simp at hm
    · intro hm
      rw [hc] at hm
      simp at hm
  · refine ⟨?_, ?_, ?_⟩
    · intro hm
      rw [hc] at hm
      simp at hm
    · intro _
      refine ⟨hgt, hle, fun c0 => ?_⟩
      rw [hc]
      simp
    · intro hm
      rw [hc] at hm
      simp at hm
  · refine ⟨?_, ?_, ?_⟩
    · intro hm
      rw [hc] at hm
      simp at hm
    · intro hm
      rw [hc] at hm
      simp at hm
    · intro hm
      rw [hc] at hm
      simp at hm
      subst hm
      refine ⟨rfl, hle1, hle2, ?_, ?_⟩
      · rw [hc]
        simp
      · rw [hc]
        rfl

/-- C3 witness: with rolling usage strictly above the per-day limit and a
1-pixel request, the day check rejects and no usage record is appended. -/
theorem render_throttle_admission_witness :
    PIXEL_LIMIT_DAY < rollingUsage overLimitState.usage (100 - 86400) 100 ∧
    numPixels smallReq.size smallReq.fps smallReq.duration ≤ PIXEL_LIMIT_VIDEO ∧
    ∀ c0 : Nat, RAct.recordedUsage c0 ∉ render smallReq overLimitState 100 :=
  (render_throttle_admission smallReq overLimitState 100 0).2.1 (by decide)

/-- C9: a render request invoked with `--export sql` never reaches the
per-request pixel check or the per-day rolling-usage check, never renders, and
never appends a usage record — regardless of the requested size, fps and
duration — and when the export happens it is the final action of the request. -/
theorem export_sql_skips_throttle (req : RenderReq) (st : RenderState) (now : Int)
    (h : req.exportArg = some "sql") :
    RAct.checkedVideoLimit ∉ render req st now ∧
    RAct.checkedDayLimit ∉ render req st now ∧
    (∀ c : Nat, RAct.recordedUsage c ∉ render req st now) ∧
    RAct.rendered ∉ render req st now ∧
    (RAct.exportedSql ∈ render req st now →
      (render req st now).getLast? = some RAct.exportedSql) := by
  have hsql : (req.exportArg == some "sql") = true := by
    rw [h]
    rfl
  rcases render_cases req st now with hc | hc | hc | hc | hc |
    ⟨hx, -, -⟩ | ⟨hx, -, -, -⟩ | ⟨hx, -, -, -⟩
  · simp [hc]
  · simp [hc]
  · simp [hc]
  · simp [hc]
  · simp [hc]
  · rw [hsql] at hx
    simp at hx
  · rw [hsql] at hx
    simp at hx
  · rw [hsql] at hx
    simp at hx

/-- C9 witness: a concrete `--export sql` request over a guild with events
evaluates the export path and touches neither limit check. -/
theorem export_sql_skips_throttle_witness :
    RAct.checkedVideoLimit ∉ render sqlReq atLimitState 100 ∧
    RAct.checkedDayLimit ∉ render sqlReq atLimitState 100 ∧
    RAct.rendered ∉ render sqlReq atLimitState 100 :=
  ⟨(export_sql_skips_throttle sqlReq atLimitState 100 rfl).1,
    (export_sql_skips_throttle sqlReq atLimitState 100 rfl).2.1,
    (export_sql_skips_throttle sqlReq atLimitState 100 rfl).2.2.2.1⟩
